import Mathlib

/-!
Shallow embedding of the shop bot (src/bot.py) for checking its natural-language
specification.  The sqlite tables created in `Database.init_db` become lists of
rows, the `Database` methods become pure state-passing functions, and the
aiogram wizard handlers become functions on an explicit wizard state.  External
effects are threaded explicitly: photo-URL resolution is a parameter
`resolve : String → Option String` (None models both "no photo" resolution and
a failed `bot.get_file` round-trip), the success of the whole
`export_to_json` file write is a boolean parameter `ok`, and outbound
Telegram message delivery is a boolean parameter per destination.

Note: the sqlite connections opened by `Database.get_connection` never execute
`PRAGMA foreign_keys = ON`, and sqlite leaves foreign-key enforcement off by
default, so the `ON DELETE CASCADE` clauses declared in `init_db` are not
enforced at run time.  `delete_category` below therefore deletes exactly the
one matching row, which is what the running program does.
-/

namespace ShopBot

/-- Python float values as far as this program can observe them.  Finite values
are kept as exact rationals (decimal literals are exactly representable here;
IEEE-754 rounding of finite literals is not modelled, which no claim in this
development depends on). -/
inductive PyFloat where
  | finite (q : Rat)
  | inf
  | neginf
  | nan
deriving DecidableEq

/-- A row of the `categories` table: id, name, parent_id (NULL for roots).
`created_at` is never read by the program logic and is omitted. -/
structure CategoryRow where
  id : Nat
  name : String
  parent_id : Option Nat
deriving DecidableEq

/-- A row of the `products` table. -/
structure ProductRow where
  id : Nat
  category_id : Nat
  name : String
  description : String
  price : PyFloat
  photo_id : Option String
  in_stock : Bool
deriving DecidableEq

/-- One item of an order payload: the JSON objects in the `items` list. -/
structure OrderItem where
  name : String
  price : Rat
  quantity : Nat
deriving DecidableEq

/-- A row of the `orders` table.  `items` is the decoded form of the JSON text
stored in the `items` column; `created_at` is omitted (orders are kept in
insertion order). -/
structure OrderRow where
  id : Nat
  user_id : Int
  username : String
  first_name : String
  items : List OrderItem
  total_price : Rat
  status : String
deriving DecidableEq

/-- The whole sqlite database: the three tables plus the AUTOINCREMENT
sequences (`sqlite_sequence`), modelled as next-id counters. -/
structure Store where
  categories : List CategoryRow
  products : List ProductRow
  orders : List OrderRow
  nextCategoryId : Nat
  nextProductId : Nat
  nextOrderId : Nat
deriving DecidableEq

/-- A freshly initialised database (`init_db` on a new file). -/
def emptyStore : Store := ⟨[], [], [], 1, 1, 1⟩

/-- Byte-order comparison of strings as sqlite's BINARY collation performs it
(UTF-8 byte order coincides with code-point order). -/
def charListLe : List Char → List Char → Bool
  | [], _ => true
  | _ :: _, [] => false
  | a :: as, b :: bs => if a = b then charListLe as bs else decide (a < b)

def strLe (a b : String) : Bool := charListLe a.data b.data

/-- Insertion step of the sort used to model SQL ORDER BY. -/
def insertLe {α : Type} (le : α → α → Bool) (x : α) : List α → List α
  | [] => [x]
  | y :: ys => if le x y then x :: y :: ys else y :: insertLe le x ys

/-- Insertion sort used to model SQL ORDER BY clauses. -/
def sortLe {α : Type} (le : α → α → Bool) : List α → List α
  | [] => []
  | x :: xs => insertLe le x (sortLe le xs)

def catNameLe (a b : CategoryRow) : Bool := strLe a.name b.name

/-- ORDER BY parent_id, name with sqlite's NULLs-first ordering. -/
def catParentNameLe (a b : CategoryRow) : Bool :=
  match a.parent_id, b.parent_id with
  | none, none => strLe a.name b.name
  | none, some _ => true
  | some _, none => false
  | some x, some y => if x = y then strLe a.name b.name else decide (x < y)

/-- `Database.get_root_categories`: WHERE parent_id IS NULL ORDER BY name. -/
def get_root_categories (st : Store) : List CategoryRow :=
  sortLe catNameLe (st.categories.filter (fun c => c.parent_id.isNone))

/-- `Database.get_subcategories`: WHERE parent_id = ? ORDER BY name. -/
def get_subcategories (st : Store) (parentId : Nat) : List CategoryRow :=
  sortLe catNameLe (st.categories.filter (fun c => c.parent_id == some parentId))

/-- `Database.get_all_categories`: SELECT id,name,parent_id ORDER BY parent_id, name. -/
def get_all_categories (st : Store) : List CategoryRow :=
  sortLe catParentNameLe st.categories

/-- `Database.get_leaf_categories`: categories with no child category.  Defined
in the source but never called by any handler. -/
def get_leaf_categories (st : Store) : List CategoryRow :=
  sortLe catNameLe (st.categories.filter
    (fun c => !(st.categories.any (fun d => d.parent_id == some c.id))))

/-- A row produced by the LEFT JOIN in `Database.get_all_products`. -/
structure JoinedProduct where
  id : Nat
  name : String
  description : String
  price : PyFloat
  photo_id : Option String
  category_id : Nat
  in_stock : Bool
  category_name : Option String
deriving DecidableEq

/-- `Database.get_all_products`: products LEFT JOIN categories, ORDER BY
created_at DESC, modelled as reverse insertion order. -/
def get_all_products (st : Store) : List JoinedProduct :=
  st.products.reverse.map (fun p =>
    ⟨p.id, p.name, p.description, p.price, p.photo_id, p.category_id, p.in_stock,
      (st.categories.find? (fun c => c.id == p.category_id)).map (fun c => c.name)⟩)

/-- One entry of the published `api/products.json` artifact: the joined row
with `photo_id` and `category_name` popped and `photo_url` added. -/
structure ExportedProduct where
  id : Nat
  name : String
  description : String
  price : PyFloat
  category_id : Nat
  in_stock : Bool
  photo_url : Option String
deriving DecidableEq

/-- The pair of published artifacts, `api/products.json` and
`api/categories.json`. -/
structure Snapshot where
  products : List ExportedProduct
  categories : List CategoryRow
deriving DecidableEq

def emptySnapshot : Snapshot := ⟨[], []⟩

/-- The snapshot `export_to_json` builds from the current store: all products
with resolved photo URLs (a failed per-photo resolution degrades that one
field to None), all categories. -/
def snapshotOf (resolve : String → Option String) (st : Store) : Snapshot :=
  ⟨(get_all_products st).map (fun j =>
      ⟨j.id, j.name, j.description, j.price, j.category_id, j.in_stock,
        j.photo_id.bind resolve⟩),
    get_all_categories st⟩

/-- The store together with the currently published snapshot files. -/
structure Sys where
  store : Store
  published : Snapshot
deriving DecidableEq

/-- `Database.export_to_json`.  `ok` tells whether the overall publish
succeeds (the method catches every exception and returns False on failure,
leaving the previously published files in place).  The third component records
the store state at each publish call, so that theorems can count publishes. -/
def export_to_json (resolve : String → Option String) (ok : Bool) (sys : Sys) :
    Bool × Sys × List Store :=
  (ok, if ok then ⟨sys.store, snapshotOf resolve sys.store⟩ else sys, [sys.store])

/-- `Database.add_category`: INSERT, commit, then publish; the publish result
is ignored and the new row id is returned. -/
def add_category (resolve : String → Option String) (ok : Bool)
    (name : String) (parentId : Option Nat) (sys : Sys) : Nat × Sys × List Store :=
  let catId := sys.store.nextCategoryId
  let st2 : Store := { sys.store with
    categories := sys.store.categories ++ [⟨catId, name, parentId⟩],
    nextCategoryId := catId + 1 }
  let r := export_to_json resolve ok ⟨st2, sys.published⟩
  (catId, r.2)

/-- `Database.delete_category`: DELETE FROM categories WHERE id = ?, commit,
publish, return True.  No cascade happens: the connection never enables
sqlite foreign-key enforcement, so the schema's ON DELETE CASCADE clauses are
inert and only the single matching row disappears. -/
def delete_category (resolve : String → Option String) (ok : Bool)
    (categoryId : Nat) (sys : Sys) : Bool × Sys × List Store :=
  let st2 : Store := { sys.store with
    categories := sys.store.categories.filter (fun c => !(c.id == categoryId)) }
  let r := export_to_json resolve ok ⟨st2, sys.published⟩
  (true, r.2)

/-- `Database.add_product`: INSERT with in_stock = 1, commit, publish, return
the new row id (publish result ignored). -/
def add_product (resolve : String → Option String) (ok : Bool)
    (categoryId : Nat) (name description : String) (price : PyFloat)
    (photoId : Option String) (sys : Sys) : Nat × Sys × List Store :=
  let prodId := sys.store.nextProductId
  let st2 : Store := { sys.store with
    products := sys.store.products ++
      [⟨prodId, categoryId, name, description, price, photoId, true⟩],
    nextProductId := prodId + 1 }
  let r := export_to_json resolve ok ⟨st2, sys.published⟩
  (prodId, r.2)

/-- `Database.delete_product`: DELETE WHERE id = ?, commit, publish, return
True (publish result ignored). -/
def delete_product (resolve : String → Option String) (ok : Bool)
    (productId : Nat) (sys : Sys) : Bool × Sys × List Store :=
  let st2 : Store := { sys.store with
    products := sys.store.products.filter (fun p => !(p.id == productId)) }
  let r := export_to_json resolve ok ⟨st2, sys.published⟩
  (true, r.2)

/-- `Database.toggle_product_stock`: SELECT in_stock WHERE id = ?; if no row,
return False without touching anything; otherwise flip the flag, commit,
publish, return True (publish result ignored). -/
def toggle_product_stock (resolve : String → Option String) (ok : Bool)
    (productId : Nat) (sys : Sys) : Bool × Sys × List Store :=
  match sys.store.products.find? (fun p => p.id == productId) with
  | none => (false, sys, [])
  | some p =>
    let newStock := !p.in_stock
    let st2 : Store := { sys.store with
      products := sys.store.products.map
        (fun q => if q.id == productId then { q with in_stock := newStock } else q) }
    let r := export_to_json resolve ok ⟨st2, sys.published⟩
    (true, r.2)

/-- `Database.clear_all_data`: DELETE all rows of the three tables and reset
the AUTOINCREMENT sequences.  No publish call appears in the method, so the
published snapshot files are untouched. -/
def clear_all_data (sys : Sys) : Sys := ⟨emptyStore, sys.published⟩

/-- The `confirm_clear` callback handler: admin check, then
`db.clear_all_data()`. -/
def confirm_clear (uid adminId : Int) (sys : Sys) : Sys :=
  if uid = adminId then clear_all_data sys else sys

/-- `Database.create_order_with_user`: INSERT the order with status 'new' and
the caller-supplied total_price, return the new row id.  Binding NULL for the
NOT NULL `user_id` column makes sqlite raise, which the method re-raises. -/
def create_order_with_user (userId : Option Int) (username firstName : String)
    (items : List OrderItem) (totalPrice : Rat) (st : Store) :
    Except String (Nat × Store) :=
  match userId with
  | none => .error "NOT NULL constraint failed: orders.user_id"
  | some u =>
    let orderId := st.nextOrderId
    .ok (orderId, { st with
      orders := st.orders ++ [⟨orderId, u, username, firstName, items, totalPrice, "new"⟩],
      nextOrderId := orderId + 1 })

/-- The JSON body POSTed to /api/create_order, with each field optional the
way `data.get` treats it. -/
structure OrderPayload where
  user_id : Option Int
  username : Option String
  first_name : Option String
  items : Option (List OrderItem)
  total_price : Option Rat
deriving DecidableEq

/-- The HTTP response of /api/create_order: the success JSON carrying the new
order id, or the 500 error JSON. -/
inductive ApiResponse where
  | success (orderId : Nat)
  | error500
deriving DecidableEq

/-- `create_order_api`: persist via `create_order_with_user` (defaults filled
in with `data.get`), then — when an admin id is configured — send the
notification to the admin and, if a channel is configured, to the channel.
Any exception, including a failed send after the commit, falls into the
catch-all and produces the 500 response; the success JSON with the order id is
returned only if everything before it succeeded. -/
def create_order_api (adminId : Int) (channelId : Option String)
    (adminSendOk channelSendOk : Bool) (payload : OrderPayload) (st : Store) :
    ApiResponse × Store :=
  match create_order_with_user payload.user_id (payload.username.getD "не указан")
      (payload.first_name.getD "Пользователь") (payload.items.getD [])
      (payload.total_price.getD 0) st with
  | .error _ => (.error500, st)
  | .ok (orderId, st2) =>
    if adminId ≠ 0 then
      if !adminSendOk then (.error500, st2)
      else if channelId.isSome && !channelSendOk then (.error500, st2)
      else (.success orderId, st2)
    else (.success orderId, st2)

/-- The aiogram FSM states of the two wizards (`AddCategory`, `AddProduct`),
plus the cleared state. -/
inductive WizardState where
  | idle
  | addCatSelectingParent
  | addCatWaitingName
  | addProdSelectingCategory
  | addProdWaitingName
  | addProdWaitingDescription
  | addProdWaitingPrice
  | addProdWaitingPhoto
deriving DecidableEq

/-- The FSM data dict accumulated by `state.update_data` during the wizards. -/
structure WizardData where
  parent_id : Option Nat
  category_id : Option Nat
  name : Option String
  description : Option String
  price : Option PyFloat
deriving DecidableEq

def emptyWizardData : WizardData := ⟨none, none, none, none, none⟩

/-- The category buttons built by `get_categories_keyboard`: root categories
when no parent is given, else the subcategories of the parent. -/
def get_categories_keyboard_cats (st : Store) (parentId : Option Nat) :
    List CategoryRow :=
  match parentId with
  | none => get_root_categories st
  | some p => get_subcategories st p

/-- The categories offered by `add_product_start`: it calls
`get_categories_keyboard(action="selectprodcat")` with no parent, i.e. the
root categories — not `get_leaf_categories`. -/
def add_product_start_cats (sys : Sys) : List CategoryRow :=
  get_categories_keyboard_cats sys.store none

/-- `select_product_category`: store the chosen id in the FSM data and move to
the name step (the handler accepts whatever id the callback carries). -/
def select_product_category (categoryId : Nat) (data : WizardData) :
    WizardState × WizardData :=
  (.addProdWaitingName, { data with category_id := some categoryId })

/-- Drop leading whitespace characters. -/
def dropLeadingWs : List Char → List Char
  | [] => []
  | c :: cs => if c.isWhitespace then dropLeadingWs cs else c :: cs

/-- Python `str.strip()` (trims surrounding whitespace), written over the
character list so that it reduces inside the kernel. -/
def pyStrip (s : String) : String :=
  ⟨(dropLeadingWs (dropLeadingWs s.data.reverse).reverse)⟩

/-- `process_product_name`: reject names shorter than 2 characters without
advancing; otherwise accumulate and advance. -/
def process_product_name (uid adminId : Int) (text : String) (data : WizardData) :
    WizardState × WizardData :=
  if uid ≠ adminId then (.addProdWaitingName, data)
  else
    let nm := pyStrip text
    if nm.length < 2 then (.addProdWaitingName, data)
    else (.addProdWaitingDescription, { data with name := some nm })

/-- `process_product_description`: reject descriptions shorter than 5
characters without advancing; otherwise accumulate and advance. -/
def process_product_description (uid adminId : Int) (text : String)
    (data : WizardData) : WizardState × WizardData :=
  if uid ≠ adminId then (.addProdWaitingDescription, data)
  else
    let ds := pyStrip text
    if ds.length < 5 then (.addProdWaitingDescription, data)
    else (.addProdWaitingPrice, { data with description := some ds })

def digitVal (c : Char) : Nat := c.toNat - 48

/-- Digits of a Python numeric literal group, with PEP 515 underscores allowed
between digits.  Returns the accumulated value, the digit count and the
unconsumed rest. -/
def groupAux : Nat → Nat → List Char → Nat × Nat × List Char
  | acc, n, '_' :: c :: cs =>
    if c.isDigit then groupAux (10 * acc + digitVal c) (n + 1) cs
    else (acc, n, '_' :: c :: cs)
  | acc, n, c :: cs =>
    if c.isDigit then groupAux (10 * acc + digitVal c) (n + 1) cs
    else (acc, n, c :: cs)
  | acc, n, [] => (acc, n, [])

/-- A digit group must start with a digit. -/
def parseGroup : List Char → Option (Nat × Nat × List Char)
  | c :: cs => if c.isDigit then some (groupAux (digitVal c) 1 cs) else none
  | [] => none

/-- A digit group with an optional sign, as in an exponent. -/
def parseSignedGroup : List Char → Option (Int × List Char)
  | '+' :: cs => (parseGroup cs).map (fun t => ((t.1 : Int), t.2.2))
  | '-' :: cs => (parseGroup cs).map (fun t => (-(t.1 : Int), t.2.2))
  | cs => (parseGroup cs).map (fun t => ((t.1 : Int), t.2.2))

/-- Integer and fraction part of a Python float literal: D [. D?] or . D,
with at least one digit overall.  The value is kept as an exact
numerator/denominator pair of naturals so that it reduces in the kernel. -/
def parseMantissa (l : List Char) : Option ((Nat × Nat) × List Char) :=
  match parseGroup l with
  | some (ip, _, r1) =>
    match r1 with
    | '.' :: r2 =>
      match parseGroup r2 with
      | some (f, fLen, r3) => some ((ip * 10 ^ fLen + f, 10 ^ fLen), r3)
      | none => some ((ip, 1), r2)
    | _ => some ((ip, 1), r1)
  | none =>
    match l with
    | '.' :: r2 =>
      match parseGroup r2 with
      | some (f, fLen, r3) => some ((f, 10 ^ fLen), r3)
      | none => none
    | _ => none

/-- Scale a numerator/denominator pair by a signed power of ten. -/
def applyExpParts : Nat × Nat → Int → Nat × Nat
  | (n, d), .ofNat e => (n * 10 ^ e, d)
  | (n, d), .negSucc e => (n, d * 10 ^ (e + 1))

/-- A full unsigned Python float literal: mantissa with an optional
e/E exponent, consuming the whole input.  Returns the exact value as a
numerator/denominator pair. -/
def parseNumber (l : List Char) : Option (Nat × Nat) :=
  match parseMantissa l with
  | none => none
  | some (m, rest) =>
    match rest with
    | [] => some m
    | 'e' :: cs =>
      match parseSignedGroup cs with
      | some (e, []) => some (applyExpParts m e)
      | _ => none
    | 'E' :: cs =>
      match parseSignedGroup cs with
      | some (e, []) => some (applyExpParts m e)
      | _ => none
    | _ => none

/-- Python `float(s)` on an already-stripped string: an optional sign followed
by "inf", "infinity", "nan" (case-insensitive) or a numeric literal.  Finite
values are kept exact; ASCII digits only (the program's inputs are chat
messages). -/
def pyFloatOfString (s : String) : Option PyFloat :=
  let signAndBody : Bool × List Char :=
    match s.data with
    | '+' :: r => (false, r)
    | '-' :: r => (true, r)
    | r => (false, r)
  let neg := signAndBody.1
  let body := signAndBody.2
  let lower := body.map Char.toLower
  if lower = "inf".data ∨ lower = "infinity".data then
    some (if neg then .neginf else .inf)
  else if lower = "nan".data then some .nan
  else
    match parseNumber body with
    | some (n, d) => some (.finite (if neg then mkRat (-(n : Int)) d else mkRat n d))
    | none => none

/-- The Python comparison `price <= 0`: every comparison with NaN is False. -/
def pyLeZero : PyFloat → Bool
  | .finite q => decide (q ≤ 0)
  | .inf => false
  | .neginf => true
  | .nan => false

/-- The normalisation the price handler applies before parsing:
`message.text.strip().replace(',', '.')` (every comma becomes a dot). -/
def normalizePriceText (text : String) : String :=
  ⟨(pyStrip text).data.map (fun c => if c = ',' then '.' else c)⟩

/-- `process_product_price`: parse the normalised text as a float and raise if
the value compares `<= 0`; on any exception re-prompt without touching the FSM
data or state; on success accumulate the price and advance to the photo step.
The handler performs no database access, so the system state is passed through
untouched and its publish-event list is empty. -/
def process_product_price (uid adminId : Int) (text : String) (data : WizardData)
    (sys : Sys) : WizardState × WizardData × Sys × List Store :=
  if uid ≠ adminId then (.addProdWaitingPrice, data, sys, [])
  else
    match pyFloatOfString (normalizePriceText text) with
    | some v =>
      if pyLeZero v then (.addProdWaitingPrice, data, sys, [])
      else (.addProdWaitingPhoto, { data with price := some v }, sys, [])
    | none => (.addProdWaitingPrice, data, sys, [])

/-- `process_product_photo`: commit `db.add_product` with the accumulated
fields and clear the session; a missing field raises KeyError, which the
handler catches, leaving state and data in place. -/
def process_product_photo (uid adminId : Int) (resolve : String → Option String)
    (ok : Bool) (photoId : Option String) (data : WizardData) (sys : Sys) :
    WizardState × WizardData × Sys × List Store × Option Nat :=
  if uid ≠ adminId then (.addProdWaitingPhoto, data, sys, [], none)
  else
    match data.category_id, data.name, data.description, data.price with
    | some cid, some nm, some ds, some pr =>
      let r := add_product resolve ok cid nm ds pr photoId sys
      (.idle, emptyWizardData, r.2.1, r.2.2, some r.1)
    | _, _, _, _ => (.addProdWaitingPhoto, data, sys, [], none)

/-- The post-mutation publishing contract: the operation performed exactly one
publish, at the post-mutation store state, and the published artifact counts
match the store counts. -/
def publishOnceOk {α : Type} (resolve : String → Option String)
    (r : α × Sys × List Store) : Prop :=
  r.2.2 = [r.2.1.store] ∧
  r.2.1.published = snapshotOf resolve r.2.1.store ∧
  r.2.1.published.products.length = r.2.1.store.products.length ∧
  r.2.1.published.categories.length = r.2.1.store.categories.length

/-- The product-list update performed by the UPDATE statement of
`toggle_product_stock`: set `in_stock` on every row with the given id. -/
def setStock (pid : Nat) (b : Bool) (l : List ProductRow) : List ProductRow :=
  l.map (fun q => if q.id == pid then { q with in_stock := b } else q)

/-- Fixture for claim C1: the initial catalog of `initial_data.py` restricted
to the root "Обувь" (id 1), its subcategory "Nike" (id 2) and one product
bound to the subcategory. -/
def c1Store : Store :=
  ⟨[⟨1, "Обувь", none⟩, ⟨2, "Nike", some 1⟩],
   [⟨1, 2, "Nike Skeleton Purple", "Хорошая модная обувь", .finite 9999, none, true⟩],
   [], 3, 2, 1⟩

def c1Sys : Sys := ⟨c1Store, emptySnapshot⟩

/-- Fixture for claim C2: one category and one product. -/
def c2Sys : Sys :=
  ⟨⟨[⟨5, "Категория", none⟩],
    [⟨1, 5, "Товар", "Описание товара", .finite 10, none, true⟩], [], 6, 2, 1⟩,
   emptySnapshot⟩

/-- Fixture for claim C3: a root category (id 1) that has a child (id 2), so
the root is not a leaf. -/
def c3Store : Store := ⟨[⟨1, "Shoes", none⟩, ⟨2, "Nike", some 1⟩], [], [], 3, 1, 1⟩

def c3Sys : Sys := ⟨c3Store, emptySnapshot⟩

/-- The complete add-product wizard run used against claim C3: the admin
(id 1) picks root category 1 from the offered keyboard, then types a name, a
description and a price, and skips the photo. -/
def c3Run : WizardState × WizardData × Sys × List Store × Option Nat :=
  let s1 := select_product_category 1 emptyWizardData
  let s2 := process_product_name 1 1 "Air X" s1.2
  let s3 := process_product_description 1 1 "Great shoes!" s2.2
  let s4 := process_product_price 1 1 "9999" s3.2 c3Sys
  process_product_photo 1 1 (fun _ => none) true none s4.2.1 s4.2.2.1

/-- Fixture for claim C4: a payload with a user id but an empty item list. -/
def c4Payload : OrderPayload := ⟨some 7, none, none, some [], none⟩

/-- Fixture for claim C5: a well-formed order payload whose items are the
worked example of the specification (A: 100 x 2, B: 50 x 1, total 250). -/
def c5Payload : OrderPayload :=
  ⟨some 42, some "sanya", some "Sanya", some [⟨"A", 100, 2⟩, ⟨"B", 50, 1⟩], some 250⟩

/-- Fixture for claim C8: the same worked example payload as in the spec. -/
def c8Payload : OrderPayload :=
  ⟨some 42, some "sanya", some "Sanya", some [⟨"A", 100, 2⟩, ⟨"B", 50, 1⟩], some 250⟩

/-- Fixture for claim C6: an empty system. -/
def c6Sys : Sys := ⟨emptyStore, emptySnapshot⟩

/-- Fixture for claim C7: a store holding one product, in stock. -/
def c7Sys : Sys :=
  ⟨⟨[⟨5, "Категория", none⟩],
    [⟨3, 5, "Рюкзак", "Стильный рюкзак", .finite 3000, none, true⟩], [], 6, 4, 1⟩,
   emptySnapshot⟩

def c7Row : ProductRow := ⟨3, 5, "Рюкзак", "Стильный рюкзак", .finite 3000, none, true⟩

/-- Fixture for claim C9: wizard data accumulated up to the price step. -/
def c9Data : WizardData := ⟨none, some 2, some "Air X", some "Great shoes!", none⟩

def c9Sys : Sys := ⟨emptyStore, emptySnapshot⟩

/-- Inserting into a sorted list grows its length by one. -/
theorem length_insertLe {α : Type} (le : α → α → Bool) (x : α) (l : List α) :
    (insertLe le x l).length = l.length + 1 := by
  induction l with
  | nil => rfl
  | cons y ys ih =>
    by_cases h : le x y
    · simp [insertLe, h]
    · simp [insertLe, h, ih]

/-- The ORDER BY model is a permutation: it preserves length. -/
theorem length_sortLe {α : Type} (le : α → α → Bool) (l : List α) :
    (sortLe le l).length = l.length := by
  induction l with
  | nil => rfl
  | cons x xs ih => simp [sortLe, length_insertLe, ih]

/-- The published product artifact has one entry per product row. -/
theorem snapshotOf_products_length (resolve : String → Option String) (st : Store) :
    (snapshotOf resolve st).products.length = st.products.length := by
  simp [snapshotOf, get_all_products]

/-- The published category artifact has one entry per category row. -/
theorem snapshotOf_categories_length (resolve : String → Option String) (st : Store) :
    (snapshotOf resolve st).categories.length = st.categories.length := by
  simp [snapshotOf, get_all_categories, length_sortLe]

/-- A successful `export_to_json` call publishes the snapshot of exactly the store it was called on. -/
theorem publishOnceOk_export {α : Type} (resolve : String → Option String)
    (st2 : Store) (pub : Snapshot) (a : α) :
    publishOnceOk resolve (a, (export_to_json resolve true ⟨st2, pub⟩).2) := by
  refine ⟨rfl, rfl, ?_, ?_⟩
  · exact snapshotOf_products_length resolve st2
  · exact snapshotOf_categories_length resolve st2

/-- After the UPDATE of `toggle_product_stock`, the row found for the id is the old row with the new flag. -/
theorem find?_setStock (l : List ProductRow) (pid : Nat) (b : Bool)
    (p : ProductRow) (h : l.find? (fun r => r.id == pid) = some p) :
    (setStock pid b l).find? (fun r => r.id == pid) = some { p with in_stock := b } := by
  induction l with
  | nil => simp at h
  | cons x xs ih =>
    cases hx : x.id == pid with
    | true =>
      simp only [List.find?, hx] at h
      cases h
      simp [setStock, List.find?, hx]
    | false =>
      simp only [List.find?, hx] at h
      simpa [setStock, List.find?, hx] using ih h

/-- Unfolding equation for a successful `export_to_json`. -/
theorem export_true_eq (resolve : String → Option String) (st : Store) (pub : Snapshot) :
    export_to_json resolve true ⟨st, pub⟩ = (true, ⟨st, snapshotOf resolve st⟩, [st]) := rfl

/-- Unfolding equation for `toggle_product_stock` when the product exists. -/
theorem toggle_eq (resolve : String → Option String) (ok : Bool) (pid : Nat) (sys : Sys)
    (p : ProductRow) (h : sys.store.products.find? (fun r => r.id == pid) = some p) :
    toggle_product_stock resolve ok pid sys =
      (true,
       (export_to_json resolve ok
         ⟨{ sys.store with products := setStock pid (!p.in_stock) sys.store.products },
          sys.published⟩).2) := by
  unfold toggle_product_stock
  rw [h]
  rfl

/-- Claim C1 at its failing input: deleting root category 1, which has subcategory 2 and a product bound to 2, removes only the row of category 1; the subcategory (still pointing at the deleted parent) and the product survive as orphans.  The connections never enable sqlite foreign-key enforcement, so the ON DELETE CASCADE declared in the schema never fires, contradicting both the schema and the claim. -/
theorem delete_category_leaves_orphans :
    (delete_category (fun _ => none) true 1 c1Sys).1 = true ∧
    (delete_category (fun _ => none) true 1 c1Sys).2.1.store.categories
      = [⟨2, "Nike", some 1⟩] ∧
    (delete_category (fun _ => none) true 1 c1Sys).2.1.store.products
      = [⟨1, 2, "Nike Skeleton Purple", "Хорошая модная обувь", .finite 9999, none, true⟩] :=
  ⟨rfl, rfl, rfl⟩

/-- Claim C2: every successful catalog mutation (add_category, delete_category, add_product, delete_product, toggle_product_stock on an existing product) performs exactly one full-replace snapshot publish, at the post-mutation store state, and the published category/product counts equal the store counts immediately after the mutation. -/
theorem mutation_publishes_post_state :
    ∀ (resolve : String → Option String) (sys : Sys),
      (∀ (nm : String) (pid : Option Nat),
        publishOnceOk resolve (add_category resolve true nm pid sys)) ∧
      (∀ categoryId : Nat,
        publishOnceOk resolve (delete_category resolve true categoryId sys)) ∧
      (∀ (cid : Nat) (nm ds : String) (pr : PyFloat) (ph : Option String),
        publishOnceOk resolve (add_product resolve true cid nm ds pr ph sys)) ∧
      (∀ productId : Nat,
        publishOnceOk resolve (delete_product resolve true productId sys)) ∧
      (∀ (productId : Nat) (p : ProductRow),
        sys.store.products.find? (fun q => q.id == productId) = some p →
        publishOnceOk resolve (toggle_product_stock resolve true productId sys)) := by
  intro resolve sys
  refine ⟨fun nm pid => ?_, fun cid => ?_, fun cid nm ds pr ph => ?_,
    fun productId => ?_, fun productId p h => ?_⟩
  · exact publishOnceOk_export resolve _ sys.published _
  · exact publishOnceOk_export resolve _ sys.published _
  · exact publishOnceOk_export resolve _ sys.published _
  · exact publishOnceOk_export resolve _ sys.published _
  · unfold toggle_product_stock
    rw [h]
    exact publishOnceOk_export resolve _ sys.published _

/-- Witness for claim C2: the toggle conjunct applied to a store that holds product 1. -/
theorem mutation_publishes_post_state_witness :
    publishOnceOk (fun _ => none)
      (toggle_product_stock (fun _ => none) true 1 c2Sys) :=
  (mutation_publishes_post_state (fun _ => none) c2Sys).2.2.2.2 1
    ⟨1, 5, "Товар", "Описание товара", .finite 10, none, true⟩ rfl

/-- Claim C3 counterexample: with root category 1 having child 2, the add-product selection step offers category 1 (the root list, not the leaf list, whose only member is 2), and a full wizard run commits a product bound to the non-leaf category 1. -/
theorem add_product_wizard_offers_nonleaf :
    (add_product_start_cats c3Sys).map (fun c => c.id) = [1] ∧
    c3Store.categories.any (fun d => d.parent_id == some 1) = true ∧
    (get_leaf_categories c3Store).map (fun c => c.id) = [2] ∧
    c3Run.2.2.2.2 = some 1 ∧
    c3Run.2.2.1.store.products
      = [⟨1, 1, "Air X", "Great shoes!", .finite 9999, none, true⟩] := by
  refine ⟨rfl, rfl, rfl, ?_, ?_⟩ <;> decide

/-- Claim C3 amended: the selection step of the add-product wizard offers exactly the root categories, leaf or not, and the commit step binds the product to the accumulated category id with no leaf check. -/
theorem add_product_wizard_cats_amended :
    (∀ sys : Sys, add_product_start_cats sys = get_root_categories sys.store) ∧
    (∀ (adminId : Int) (resolve : String → Option String) (ok : Bool) (cid : Nat)
      (nm ds : String) (pr : PyFloat) (ph : Option String) (sys : Sys),
      process_product_photo adminId adminId resolve ok ph
          ⟨none, some cid, some nm, some ds, some pr⟩ sys
        = (.idle, emptyWizardData, (add_product resolve ok cid nm ds pr ph sys).2.1,
           (add_product resolve ok cid nm ds pr ph sys).2.2,
           some (add_product resolve ok cid nm ds pr ph sys).1)) := by
  refine ⟨fun sys => rfl, fun adminId resolve ok cid nm ds pr ph sys => ?_⟩
  simp [process_product_photo]

/-- Claim C4 counterexample: a payload with an empty item list (and a present user id) is not rejected — it is persisted as an order with an empty item list and the defaulted total 0, and the submitter receives the success response. -/
theorem empty_order_is_persisted :
    create_order_api 1 none true true c4Payload emptyStore
      = (.success 1, { emptyStore with
          orders := [⟨1, 7, "не указан", "Пользователь", [], 0, "new"⟩],
          nextOrderId := 2 }) := rfl

/-- Claim C4 amended: order intake performs no item-list or payload-type validation; any payload with a present user id is persisted verbatim (defaults filled in), including one with an empty item list, and only a payload whose missing user id violates the NOT NULL insert is rejected without persisting. -/
theorem order_intake_amended :
    ∀ (adminId : Int) (channelId : Option String) (st : Store) (u : Int)
      (un fn : Option String) (items : List OrderItem) (tp : Rat),
      (create_order_api adminId channelId true true ⟨some u, un, fn, some items, some tp⟩ st).2
        = { st with
            orders := st.orders ++ [⟨st.nextOrderId, u, un.getD "не указан",
              fn.getD "Пользователь", items, tp, "new"⟩],
            nextOrderId := st.nextOrderId + 1 } ∧
      (∀ adminOk channelOk : Bool,
        create_order_api adminId channelId adminOk channelOk ⟨none, un, fn, some items, some tp⟩ st
          = (.error500, st)) := by
  intro adminId channelId st u un fn items tp
  constructor
  · by_cases h : adminId = 0
    · simp [create_order_api, create_order_with_user, h]
    · simp [create_order_api, create_order_with_user, h]
  · intro adminOk channelOk
    rfl

/-- Claim C5 counterexample: when the admin notification delivery fails, the API answers with the 500 error response carrying no order id — yet the order is already committed with status new. -/
theorem order_confirmation_lost_on_delivery_failure :
    create_order_api 1 none false true c5Payload emptyStore
      = (.error500, { emptyStore with
          orders := [⟨1, 42, "sanya", "Sanya", [⟨"A", 100, 2⟩, ⟨"B", 50, 1⟩], 250, "new"⟩],
          nextOrderId := 2 }) := rfl

/-- Claim C5 amended: the submitter receives the success confirmation with the generated order id only when notification delivery succeeds; when delivery fails the response is the 500 error without an order id, while the order remains persisted with status new. -/
theorem order_confirmation_amended :
    ∀ (adminId : Int) (channelId : Option String) (st : Store) (u : Int)
      (un fn : Option String) (items : List OrderItem) (tp : Rat),
      adminId ≠ 0 →
      (create_order_api adminId channelId false true ⟨some u, un, fn, some items, some tp⟩ st).1
        = .error500 ∧
      (create_order_api adminId channelId false true ⟨some u, un, fn, some items, some tp⟩ st).2.orders
        = st.orders ++ [⟨st.nextOrderId, u, un.getD "не указан", fn.getD "Пользователь",
            items, tp, "new"⟩] ∧
      (create_order_api adminId channelId true true ⟨some u, un, fn, some items, some tp⟩ st).1
        = .success st.nextOrderId := by
  intro adminId channelId st u un fn items tp h
  refine ⟨?_, ?_, ?_⟩
  · simp [create_order_api, create_order_with_user, h]
  · simp [create_order_api, create_order_with_user, h]
  · simp [create_order_api, create_order_with_user, h]

/-- Witness for claim C5: the amended statement applied to a concrete payload with a configured admin. -/
theorem order_confirmation_amended_witness :
    (create_order_api 1 none false true c5Payload emptyStore).1 = .error500 ∧
    (create_order_api 1 none false true c5Payload emptyStore).2.orders
      = [⟨1, 42, "sanya", "Sanya", [⟨"A", 100, 2⟩, ⟨"B", 50, 1⟩], 250, "new"⟩] ∧
    (create_order_api 1 none true true c5Payload emptyStore).1 = .success 1 :=
  order_confirmation_amended 1 none emptyStore 42 (some "sanya") (some "Sanya")
    [⟨"A", 100, 2⟩, ⟨"B", 50, 1⟩] 250 (by decide)

/-- Claim C6 counterexample: with the publish failing, add_category returns exactly the same value as when the publish succeeds, so no distinct warning-level outcome reaches the caller; the mutation is committed and only the published files are left stale. -/
theorem publish_failure_not_surfaced :
    (add_category (fun _ => none) false "Обувь" none c6Sys).1
        = (add_category (fun _ => none) true "Обувь" none c6Sys).1 ∧
    (add_category (fun _ => none) false "Обувь" none c6Sys).2.1.store.categories
        = [⟨1, "Обувь", none⟩] ∧
    (add_category (fun _ => none) false "Обувь" none c6Sys).2.1.published = emptySnapshot :=
  ⟨rfl, rfl, rfl⟩

/-- Claim C6 amended: when the snapshot publish fails, every mutation is still committed and returns its normal success value, indistinguishable from the publish-succeeded run; the failure is only logged, never surfaced to the caller, and the previously published snapshot stays in place. -/
theorem publish_failure_amended :
    ∀ (resolve : String → Option String) (sys : Sys),
      (∀ (nm : String) (pid : Option Nat),
        (add_category resolve false nm pid sys).1 = (add_category resolve true nm pid sys).1 ∧
        (add_category resolve false nm pid sys).2.1.store
          = (add_category resolve true nm pid sys).2.1.store ∧
        (add_category resolve false nm pid sys).2.1.published = sys.published) ∧
      (∀ categoryId : Nat,
        (delete_category resolve false categoryId sys).1
          = (delete_category resolve true categoryId sys).1 ∧
        (delete_category resolve false categoryId sys).2.1.store
          = (delete_category resolve true categoryId sys).2.1.store ∧
        (delete_category resolve false categoryId sys).2.1.published = sys.published) ∧
      (∀ (cid : Nat) (nm ds : String) (pr : PyFloat) (ph : Option String),
        (add_product resolve false cid nm ds pr ph sys).1
          = (add_product resolve true cid nm ds pr ph sys).1 ∧
        (add_product resolve false cid nm ds pr ph sys).2.1.store
          = (add_product resolve true cid nm ds pr ph sys).2.1.store ∧
        (add_product resolve false cid nm ds pr ph sys).2.1.published = sys.published) ∧
      (∀ productId : Nat,
        (delete_product resolve false productId sys).1
          = (delete_product resolve true productId sys).1 ∧
        (delete_product resolve false productId sys).2.1.store
          = (delete_product resolve true productId sys).2.1.store ∧
        (delete_product resolve false productId sys).2.1.published = sys.published) ∧
      (∀ productId : Nat,
        (toggle_product_stock resolve false productId sys).1
          = (toggle_product_stock resolve true productId sys).1 ∧
        (toggle_product_stock resolve false productId sys).2.1.store
          = (toggle_product_stock resolve true productId sys).2.1.store ∧
        (toggle_product_stock resolve false productId sys).2.1.published = sys.published) := by
  intro resolve sys
  refine ⟨fun nm pid => ⟨rfl, rfl, rfl⟩, fun cid => ⟨rfl, rfl, rfl⟩,
    fun cid nm ds pr ph => ⟨rfl, rfl, rfl⟩, fun productId => ⟨rfl, rfl, rfl⟩,
    fun productId => ?_⟩
  cases hf : sys.store.products.find? (fun p => p.id == productId) with
  | none =>
    unfold toggle_product_stock
    rw [hf]
    exact ⟨rfl, rfl, rfl⟩
  | some p =>
    rw [toggle_eq resolve false productId sys p hf, toggle_eq resolve true productId sys p hf]
    exact ⟨rfl, rfl, rfl⟩

/-- Claim C7: toggling the stock flag of an existing product twice returns the row found for that id to its original value, and toggling an unknown id returns False without mutating anything (and without publishing). -/
theorem toggle_stock_involution :
    ∀ (resolve : String → Option String) (sys : Sys) (pid : Nat),
      (∀ p : ProductRow,
        sys.store.products.find? (fun r => r.id == pid) = some p →
        (toggle_product_stock resolve true pid sys).1 = true ∧
        (toggle_product_stock resolve true pid
            (toggle_product_stock resolve true pid sys).2.1).1 = true ∧
        (toggle_product_stock resolve true pid
            (toggle_product_stock resolve true pid sys).2.1).2.1.store.products.find?
          (fun r => r.id == pid) = some p) ∧
      (sys.store.products.find? (fun r => r.id == pid) = none →
        toggle_product_stock resolve true pid sys = (false, sys, [])) := by
  intro resolve sys pid
  constructor
  · intro p h
    have h1 := find?_setStock sys.store.products pid (!p.in_stock) p h
    have e1 := toggle_eq resolve true pid sys p h
    rw [export_true_eq] at e1
    have e2 := toggle_eq resolve true pid
      ⟨{ sys.store with products := setStock pid (!p.in_stock) sys.store.products },
        snapshotOf resolve
          { sys.store with products := setStock pid (!p.in_stock) sys.store.products }⟩
      { p with in_stock := !p.in_stock } h1
    rw [export_true_eq] at e2
    have h2 := find?_setStock (setStock pid (!p.in_stock) sys.store.products) pid
      (!(!p.in_stock)) { p with in_stock := !p.in_stock } h1
    refine ⟨by rw [e1], ?_, ?_⟩
    · rw [e1]
      dsimp only
      rw [e2]
    · rw [e1]
      dsimp only
      rw [e2]
      dsimp only
      rw [h2]
      simp only [Bool.not_not]
  · intro h
    unfold toggle_product_stock
    rw [h]

/-- Witness for claim C7: the involution applied to the one-product fixture. -/
theorem toggle_stock_involution_witness :
    (toggle_product_stock (fun _ => none) true 3 c7Sys).1 = true ∧
    (toggle_product_stock (fun _ => none) true 3
        (toggle_product_stock (fun _ => none) true 3 c7Sys).2.1).1 = true ∧
    (toggle_product_stock (fun _ => none) true 3
        (toggle_product_stock (fun _ => none) true 3 c7Sys).2.1).2.1.store.products.find?
      (fun r => r.id == 3) = some c7Row :=
  (toggle_stock_involution (fun _ => none) c7Sys 3).1 c7Row rfl

/-- Claim C8: the persisted order's total_price is exactly the payload's total_price — `create_order_with_user` inserts the argument verbatim for every item list and every total, with no recomputation from the item lines; in particular the spec's worked example (A: 100 x 2, B: 50 x 1, total 250) persists 250. -/
theorem order_total_verbatim :
    ∀ (st : Store) (u : Int) (un fn : String) (items : List OrderItem) (tp : Rat),
      create_order_with_user (some u) un fn items tp st
        = .ok (st.nextOrderId, { st with
            orders := st.orders ++ [⟨st.nextOrderId, u, un, fn, items, tp, "new"⟩],
            nextOrderId := st.nextOrderId + 1 }) ∧
      (∀ (adminId : Int) (channelId : Option String),
        (create_order_api adminId channelId true true
            ⟨some u, some un, some fn, some items, some tp⟩ st).2.orders
          = st.orders ++ [⟨st.nextOrderId, u, un, fn, items, tp, "new"⟩]) ∧
      (create_order_api 1 none true true c8Payload emptyStore).2.orders
        = [⟨1, 42, "sanya", "Sanya", [⟨"A", 100, 2⟩, ⟨"B", 50, 1⟩], 250, "new"⟩] := by
  intro st u un fn items tp
  refine ⟨rfl, ?_, rfl⟩
  intro adminId channelId
  by_cases h : adminId = 0
  · simp [create_order_api, create_order_with_user, h]
  · simp [create_order_api, create_order_with_user, h]

/-- Claim C9 counterexample: the price input "nan" is accepted — Python float("nan") succeeds and NaN <= 0 is False — so the wizard advances to the photo step with price NaN, although "nan" does not parse as a number strictly greater than zero. -/
theorem price_step_accepts_nan :
    process_product_price 1 1 "nan" c9Data c9Sys
      = (.addProdWaitingPhoto, { c9Data with price := some PyFloat.nan }, c9Sys, []) ∧
    pyFloatOfString (normalizePriceText "nan") = some PyFloat.nan ∧
    pyLeZero PyFloat.nan = false := by
  refine ⟨?_, ?_, rfl⟩ <;> decide

/-- Claim C9 amended: a price input is accepted exactly when the comma-to-dot-normalised text parses as a Python float whose comparison `value <= 0` is False (so NaN and +infinity are accepted too); on rejection the wizard stays at the price step with the data dict untouched, and in all cases the store is not mutated, nothing is published, and the accumulated category, name and description fields are kept. -/
theorem price_step_amended :
    ∀ (adminId : Int) (text : String) (data : WizardData) (sys : Sys),
      ((process_product_price adminId adminId text data sys).1 = .addProdWaitingPhoto ↔
        ∃ v, pyFloatOfString (normalizePriceText text) = some v ∧ pyLeZero v = false) ∧
      (process_product_price adminId adminId text data sys).2.2.1 = sys ∧
      (process_product_price adminId adminId text data sys).2.2.2 = [] ∧
      (process_product_price adminId adminId text data sys).2.1.category_id = data.category_id ∧
      (process_product_price adminId adminId text data sys).2.1.name = data.name ∧
      (process_product_price adminId adminId text data sys).2.1.description = data.description ∧
      ((process_product_price adminId adminId text data sys).1 = .addProdWaitingPrice →
        (process_product_price adminId adminId text data sys).2.1 = data) := by
  intro adminId text data sys
  have hadmin : ¬(adminId ≠ adminId) := by simp
  cases hp : pyFloatOfString (normalizePriceText text) with
  | none =>
    have e : process_product_price adminId adminId text data sys
        = (.addProdWaitingPrice, data, sys, []) := by
      unfold process_product_price
      rw [if_neg hadmin, hp]
    rw [e]
    refine ⟨⟨fun h => ?_, ?_⟩, rfl, rfl, rfl, rfl, rfl, fun _ => rfl⟩
    · simp at h
    · rintro ⟨w, hw, _⟩
      cases hw
  | some v =>
    cases hlz : pyLeZero v with
    | true =>
      have e : process_product_price adminId adminId text data sys
          = (.addProdWaitingPrice, data, sys, []) := by
        unfold process_product_price
        rw [if_neg hadmin, hp]
        dsimp only
        rw [if_pos hlz]
      rw [e]
      refine ⟨⟨fun h => ?_, ?_⟩, rfl, rfl, rfl, rfl, rfl, fun _ => rfl⟩
      · simp at h
      · rintro ⟨w, hw, hwl⟩
        have hwv : w = v := (Option.some.inj hw).symm
        rw [hwv, hlz] at hwl
        cases hwl
    | false =>
      have e : process_product_price adminId adminId text data sys
          = (.addProdWaitingPhoto, { data with price := some v }, sys, []) := by
        unfold process_product_price
        rw [if_neg hadmin, hp]
        dsimp only
        rw [if_neg (by rw [hlz]; exact Bool.false_ne_true)]
      rw [e]
      refine ⟨⟨fun _ => ⟨v, rfl, hlz⟩, fun _ => rfl⟩, rfl, rfl, rfl, rfl, rfl, fun h => ?_⟩
      simp at h

/-- Witness for claim C9: "12,5" is accepted and advances the wizard; "0" is rejected and leaves the data dict unchanged. -/
theorem price_step_amended_witness :
    (process_product_price 1 1 "12,5" c9Data c9Sys).1 = .addProdWaitingPhoto ∧
    (process_product_price 1 1 "0" c9Data c9Sys).2.1 = c9Data :=
  ⟨((price_step_amended 1 "12,5" c9Data c9Sys).1).mpr
      ⟨PyFloat.finite (mkRat 25 2), by decide, by decide⟩,
    (price_step_amended 1 "0" c9Data c9Sys).2.2.2.2.2.2 (by decide)⟩

/-- Claim C10: the confirmed full reset empties categories, products and orders (and resets the id sequences) but performs no snapshot publish, so the published artifacts are unchanged and still reflect the pre-reset catalog. -/
theorem clear_all_data_frame :
    ∀ (adminId : Int) (sys : Sys),
      confirm_clear adminId adminId sys = ⟨emptyStore, sys.published⟩ ∧
      (clear_all_data sys).published = sys.published ∧
      (clear_all_data sys).store.categories = [] ∧
      (clear_all_data sys).store.products = [] ∧
      (clear_all_data sys).store.orders = [] := by
  intro adminId sys
  refine ⟨?_, rfl, rfl, rfl, rfl⟩
  simp [confirm_clear, clear_all_data]

end ShopBot
